import Mathlib

/-!
Shallow embedding of the sense/act bridge logic of
`edge_st_examples/aws/example_ble_aws_1.py` (EdgeSTSDK_Python).

The embedding follows the source: the `SwitchStatus` enum, the two MQTT
message callbacks, the actuation helper `iot_device_act`, the body of the
infinite loop in `main`, the startup sequence of `main`, and `read_input`.
External library behaviour that the script relies on (Python `in` on
strings, `str.split`, `json.loads`, `getopt.getopt`) is modelled by
executable Lean functions restricted to the shapes the bridge's wire
schema uses; each such model carries a doc comment saying so.
-/

namespace EdgeBleAws

/-- Status of the switch (`class SwitchStatus(Enum)`, source lines 163-165). -/
inductive SwitchStatus
  | OFF
  | ON
deriving DecidableEq, Repr

/-- Numeric value of the enum member (Python `Enum.value`: OFF is 0, ON is 1). -/
def SwitchStatus.value : SwitchStatus → Nat
  | .OFF => 0
  | .ON => 1

/-- Source line 135. -/
def IOT_DEVICE_1_NAME : String := "IoT_Device_1"

/-- Source line 136. -/
def IOT_DEVICE_2_NAME : String := "IoT_Device_2"

/-- Modelled behaviour of the external BlueST SDK constant
`feature_switch.FeatureSwitch.FEATURE_DATA_NAME`, the JSON key of the
switch feature in the bridge's wire schema (spec section 6 and the literal
payload of spec section 8). -/
def FEATURE_DATA_NAME : String := "switch_status_value"

/-- Whether `needle` occurs at the head of `hay`. -/
def leadsWith : List Char → List Char → Bool
  | [], _ => true
  | _ :: _, [] => false
  | n :: ns, h :: hs => n = h && leadsWith ns hs

/-- Substring occurrence of `needle` inside the haystack. -/
def containsSub (needle : List Char) : List Char → Bool
  | [] => needle.isEmpty
  | c :: hs => leadsWith needle (c :: hs) || containsSub needle hs

/-- Modelled behaviour of the Python membership test `needle in hay` on
strings: substring containment. -/
def pyContains (hay needle : String) : Bool :=
  containsSub needle.data hay.data

/-- Helper of `pySplit`: accumulates the current chunk in reverse. -/
def splitChar (sep : Char) : List Char → List Char → List String
  | [], acc => [String.mk acc.reverse]
  | c :: cs, acc =>
    if c = sep then String.mk acc.reverse :: splitChar sep cs []
    else splitChar sep cs (c :: acc)

/-- Modelled behaviour of Python `s.split(sep)` for a one-character separator:
non-collapsing split, consecutive separators yield empty chunks. -/
def pySplit (s : String) (sep : Char) : List String :=
  splitChar sep s.data []

/-- Reads the body of a JSON string literal (escape sequences are outside the
bridge's wire schema and not modelled): stops at the closing double quote,
returning the body and the remaining characters. -/
def jStringBody : List Char → List Char → Option (String × List Char)
  | [], _ => none
  | c :: rest, acc =>
    if c = '"' then some (String.mk acc.reverse, rest)
    else jStringBody rest (c :: acc)

/-- Reads a leading JSON string literal including its opening double quote. -/
def jString : List Char → Option (String × List Char)
  | [] => none
  | c :: rest => if c = '"' then jStringBody rest [] else none

/-- The opening brace character. -/
def lbrace : Char := Char.ofNat 123

/-- The closing brace character. -/
def rbrace : Char := Char.ofNat 125

/-- Parses the members of a flat JSON object of string values, after the
opening brace, up to and including the closing brace ending the input.
The fuel argument bounds the number of members. -/
def jMembers : Nat → List Char → Option (List (String × String))
  | 0, _ => none
  | fuel + 1, cs =>
    match jString cs with
    | none => none
    | some (k, rest) =>
      match rest with
      | [] => none
      | c :: rest2 =>
        if c = ':' then
          match jString rest2 with
          | none => none
          | some (v, rest3) =>
            match rest3 with
            | [] => none
            | d :: rest4 =>
              if d = rbrace then (if rest4.isEmpty then some [(k, v)] else none)
              else if d = ',' then (jMembers fuel rest4).map (fun ms => (k, v) :: ms)
              else none
        else none

/-- Modelled behaviour of Python `json.loads` restricted to the bridge's wire
schema: a flat JSON object whose values are strings, with no whitespace
between tokens. Returns `none` where `json.loads` would raise `ValueError`. -/
def json_loads_obj (payload : String) : Option (List (String × String)) :=
  match payload.data with
  | [] => none
  | c :: rest => if c = lbrace then jMembers payload.length rest else none

/-- Python exceptions that the message callbacks can raise. -/
inductive PyError
  | unboundLocalError
  | valueError
  | keyError
deriving DecidableEq, Repr

/-- `json.loads(payload)[key]`: `ValueError` when the payload is not a
supported JSON object, `KeyError` when the key is absent; Python keeps the
last binding of a duplicated key, hence the lookup on the reversed list. -/
def json_loads_lookup (payload key : String) : Except PyError String :=
  match json_loads_obj payload with
  | none => .error .valueError
  | some obj =>
    match obj.reverse.lookup key with
    | none => .error .keyError
    | some v => .ok v

/-- Per-device slice of the script's global state: `iot_device_X_status` and
`iot_device_X_act_flag`. -/
structure DeviceState where
  status : SwitchStatus
  act_flag : Bool
deriving DecidableEq, Repr

/-- Common body of `iot_device_1_callback` (source lines 313-327) and
`iot_device_2_callback` (lines 332-346), which are textually identical up to
the device name. The locals `ts`, `client_id`, `switch_status` are assigned
only inside the `if feature_name in message.payload` branch; when that guard
is false the later test `if client_id == ...` references an unassigned local
and raises `UnboundLocalError`. A field value that does not split into
exactly three space-separated tokens raises `ValueError` at the tuple
unpacking. -/
def iot_device_callback (device_name payload : String) (st : DeviceState) :
    Except PyError DeviceState :=
  if pyContains payload FEATURE_DATA_NAME then
    match json_loads_lookup payload FEATURE_DATA_NAME with
    | .error e => .error e
    | .ok field_value =>
      match pySplit field_value ' ' with
      | [_ts, client_id, switch_status] =>
        if client_id = device_name then
          .ok { status := if switch_status ≠ "0" then SwitchStatus.ON else SwitchStatus.OFF,
                act_flag := true }
        else
          .ok st
      | _ => .error .valueError
  else
    .error .unboundLocalError

/-- The script's mutable global state driven by the loop and the callbacks. -/
structure LoopState where
  iot_device_1_status : SwitchStatus
  iot_device_2_status : SwitchStatus
  iot_device_1_act_flag : Bool
  iot_device_2_act_flag : Bool
deriving DecidableEq, Repr

/-- `iot_device_1_callback` acting on the global state (source lines 313-327). -/
def iot_device_1_callback (payload : String) (s : LoopState) : Except PyError LoopState :=
  match iot_device_callback IOT_DEVICE_1_NAME payload
      ⟨s.iot_device_1_status, s.iot_device_1_act_flag⟩ with
  | .error e => .error e
  | .ok d => .ok { s with iot_device_1_status := d.status, iot_device_1_act_flag := d.act_flag }

/-- `iot_device_2_callback` acting on the global state (source lines 332-346). -/
def iot_device_2_callback (payload : String) (s : LoopState) : Except PyError LoopState :=
  match iot_device_callback IOT_DEVICE_2_NAME payload
      ⟨s.iot_device_2_status, s.iot_device_2_act_flag⟩ with
  | .error e => .error e
  | .ok d => .ok { s with iot_device_2_status := d.status, iot_device_2_act_flag := d.act_flag }

/-- Library calls performed while actuating a device. -/
inductive Call
  | disable_notifications
  | write_switch_status (value : Nat)
  | enable_notifications
  | update_shadow_state (state_json : String)
deriving DecidableEq, Repr

/-- The shadow desired-state document built at source lines 359, 499 and 501. -/
def shadow_desired_json (value : Nat) : String :=
  "\x7b\"state\":\x7b\"desired\":\x7b\"switch_status\":" ++ toString value ++ "\x7d\x7d\x7d"

/-- A sequence of library calls together with whether an exception was raised
after the last call in the sequence. -/
structure TraceResult where
  calls : List Call
  raised : Bool
deriving DecidableEq, Repr

/-- `iot_device_act` (source lines 351-360). The parameter `write_ok` models
whether the BLE write succeeds; on failure the exception propagates after the
disable call and the failed write attempt, so neither the re-enable nor the
shadow update is executed. -/
def iot_device_act (write_ok : Bool) (iot_device_status : SwitchStatus) : TraceResult :=
  if write_ok then
    { calls := [Call.disable_notifications,
                Call.write_switch_status iot_device_status.value,
                Call.enable_notifications,
                Call.update_shadow_state (shadow_desired_json iot_device_status.value)],
      raised := false }
  else
    { calls := [Call.disable_notifications,
                Call.write_switch_status iot_device_status.value],
      raised := true }

/-- Notification-enabled state of a device after one call. -/
def stepNotif (enabled : Bool) : Call → Bool
  | Call.disable_notifications => false
  | Call.enable_notifications => true
  | _ => enabled

/-- Notification-enabled state after each successive call of a trace. A sense
event can be recorded by `MyFeatureSwitchListener.on_update` only at a point
where this state is `true`. -/
def notifStates (enabled : Bool) : List Call → List Bool
  | [] => []
  | c :: cs => stepNotif enabled c :: notifStates (stepNotif enabled c) cs

/-- Whether a call goes to the BLE device or feature rather than to the cloud
client. -/
def isBleCall : Call → Bool
  | Call.update_shadow_state _ => false
  | _ => true

/-- Result of one iteration of the infinite loop of `main`. -/
structure IterResult where
  state : LoopState
  applies : List (Nat × SwitchStatus)
  calls : List Call
  raised : Bool
deriving DecidableEq, Repr

/-- One iteration of the infinite loop of `main` (source lines 520-532).
`notif1` and `notif2` are the values `wait_for_notifications` returns for the
two devices in this iteration; if either is true the iteration continues
without touching the act flags. Otherwise device 1's flag is checked first
and, because of the `elif`, device 2's flag only when device 1's is clear.
`applies` records the apply attempts made, with the device index and the
status value passed to `iot_device_act`. When `iot_device_act` raises, the
flag-clearing assignment after the call is not reached and the exception
propagates out of the loop. -/
def loop_iter (notif1 notif2 write_ok : Bool) (s : LoopState) : IterResult :=
  if notif1 || notif2 then
    { state := s, applies := [], calls := [], raised := false }
  else if s.iot_device_1_act_flag then
    let r := iot_device_act write_ok s.iot_device_1_status
    if r.raised then
      { state := s, applies := [(1, s.iot_device_1_status)], calls := r.calls, raised := true }
    else
      { state := { s with iot_device_1_act_flag := false },
        applies := [(1, s.iot_device_1_status)], calls := r.calls, raised := false }
  else if s.iot_device_2_act_flag then
    let r := iot_device_act write_ok s.iot_device_2_status
    if r.raised then
      { state := s, applies := [(2, s.iot_device_2_status)], calls := r.calls, raised := true }
    else
      { state := { s with iot_device_2_act_flag := false },
        applies := [(2, s.iot_device_2_status)], calls := r.calls, raised := false }
  else
    { state := s, applies := [], calls := [], raised := false }

/-- A loop iteration as observed through `main`'s exception handler. -/
structure RunResult where
  state : LoopState
  applies : List (Nat × SwitchStatus)
  calls : List Call
  reported : Bool
  loop_exited : Bool
deriving DecidableEq, Repr

/-- One loop iteration together with `main`'s handler (source lines 534-535):
an `InvalidOperationException` escaping the loop body is printed
(`reported`), and the infinite loop is exited (`loop_exited`), so the act is
not retried. -/
def run_iter_caught (notif1 notif2 write_ok : Bool) (s : LoopState) : RunResult :=
  let r := loop_iter notif1 notif2 write_ok s
  { state := r.state, applies := r.applies, calls := r.calls,
    reported := r.raised, loop_exited := r.raised }

/-- Outcome of `read_input`: the process may exit with a code after printing
messages, raise a `NameError`, or return with the two globals assigned. -/
inductive ReadInputResult
  | exited (code : Nat) (printed : List String)
  | raisedNameError (printed : List String)
  | ok (endpoint root_ca_path : String) (printed : List String)
deriving DecidableEq, Repr

/-- Abbreviation of the usage message printed on a `GetoptError`
(source lines 93-98). -/
def USAGE : String := "Usage: python <application>.py -e <endpoint> -r <root_ca_path>"

/-- Abbreviation of the help message printed for `-h` (source lines 101-108). -/
def HELP : String := "-e, --endpoint -r, --rootCA -h, --help"

/-- The message of source line 202, quoting elided. -/
def MISSING_ENDPOINT_MSG : String := "Missing -e or --endpoint"

/-- The message of source line 205, quoting elided. -/
def MISSING_ROOT_CA_MSG : String := "Missing -r or --rootCA"

/-- Whether a short option of the option string `hwe:k:c:r:` takes an
argument. -/
def needsArg (c : Char) : Bool :=
  c = 'e' || c = 'k' || c = 'c' || c = 'r'

/-- Whether a character is one of the short options of `hwe:k:c:r:`. -/
def isOptChar (c : Char) : Bool :=
  c = 'h' || c = 'w' || needsArg c

/-- Modelled behaviour of `getopt.getopt(argv, "hwe:k:c:r:", ...)` for the
forms the script documents: one short option per token, with the argument of
an argument-taking option either attached or in the next token. Returns
`none` where getopt raises `GetoptError` (unknown option, missing argument,
or any long option: the long-option list at source line 184 is a single
malformed string, so none of the documented long options parse). Parsing
stops at the first token that is not an option. Option clustering is not
modelled. -/
def pygetopt : List String → Option (List (String × String))
  | [] => some []
  | a :: rest =>
    match a.data with
    | '-' :: c :: attached =>
      if c = '-' then none
      else if ¬ isOptChar c then none
      else if needsArg c then
        match attached with
        | [] =>
          match rest with
          | [] => none
          | arg :: rest2 => (pygetopt rest2).map (fun l => (String.mk ['-', c], arg) :: l)
        | _ => (pygetopt rest).map (fun l => (String.mk ['-', c], String.mk attached) :: l)
      else
        if attached.isEmpty then (pygetopt rest).map (fun l => (String.mk ['-', c], "") :: l)
        else none
    | _ => some []

/-- The missing-parameter checks of `read_input` (source lines 200-208). The
globals `endpoint` and `root_ca_path` are never assigned before
`read_input`, so an option that was absent leaves the global unbound
(`none`), and the truth test `if not endpoint` then raises `NameError`; an
option given with an empty value is bound but falsy and produces the missing
message and `exit(2)`. -/
def checkMissing (endpoint root_ca_path : Option String) : ReadInputResult :=
  match endpoint with
  | none => .raisedNameError []
  | some e =>
    let printed_e := if e = "" then [MISSING_ENDPOINT_MSG] else []
    match root_ca_path with
    | none => .raisedNameError printed_e
    | some r =>
      let printed := printed_e ++ (if r = "" then [MISSING_ROOT_CA_MSG] else [])
      if e = "" || r = "" then .exited 2 printed
      else .ok e r printed

/-- The option-processing loop of `read_input` (source lines 187-194): `-h`
prints the help and exits 0, `-e` and `-r` assign the globals, other
accepted options are ignored. -/
def readOpts : List (String × String) → Option String → Option String → ReadInputResult
  | [], e, r => checkMissing e r
  | (o, a) :: rest, e, r =>
    if o = "-h" then .exited 0 [HELP]
    else if o = "-e" then readOpts rest (some a) r
    else if o = "-r" then readOpts rest e (some a)
    else readOpts rest e r

/-- `read_input` (source lines 179-208). A `GetoptError`, including the one
raised explicitly when no options were parsed, prints the usage message and
exits 1. -/
def read_input (argv : List String) : ReadInputResult :=
  match pygetopt argv with
  | none => .exited 1 [USAGE]
  | some opts =>
    if opts.isEmpty then .exited 1 [USAGE]
    else readOpts opts none none

/-- Externally visible startup actions of `main` between the initial state
assignment and the first loop iteration. -/
inductive StartupEvent
  | write_switch (dev : Nat) (value : Nat)
  | subscribe_act (dev : Nat)
  | update_shadow (dev : Nat) (state_json : String)
  | add_sense_listener (dev : Nat)
  | enable_notif (dev : Nat)
deriving DecidableEq, Repr

/-- The startup sequence of `main` after a successful BLE and cloud setup
(source lines 411-415 for the initial state, 476-477 for the switch resets,
495-496 for the act-topic subscriptions, 499-502 for the shadow resets,
508-509 for the sense listeners, 513-514 for enabling notifications),
returning the global state handed to the first loop iteration and the
ordered trace of device-visible actions. -/
def main_startup : LoopState × List StartupEvent :=
  let iot_device_1_status := SwitchStatus.OFF
  let iot_device_2_status := SwitchStatus.OFF
  let iot_device_1_act_flag := false
  let iot_device_2_act_flag := false
  (⟨iot_device_1_status, iot_device_2_status, iot_device_1_act_flag, iot_device_2_act_flag⟩,
   [StartupEvent.write_switch 1 iot_device_1_status.value,
    StartupEvent.write_switch 2 iot_device_2_status.value,
    StartupEvent.subscribe_act 1,
    StartupEvent.subscribe_act 2,
    StartupEvent.update_shadow 1 (shadow_desired_json iot_device_1_status.value),
    StartupEvent.update_shadow 2 (shadow_desired_json iot_device_2_status.value),
    StartupEvent.add_sense_listener 1,
    StartupEvent.add_sense_listener 2,
    StartupEvent.enable_notif 1,
    StartupEvent.enable_notif 2])

/-- The numeric payload of a physical switch write, if the call is one. -/
def callWriteValue : Call → Option Nat
  | Call.write_switch_status v => some v
  | _ => none

/-- The document of a shadow desired-state update, if the call is one. -/
def callShadowJson : Call → Option String
  | Call.update_shadow_state j => some j
  | _ => none

/-- The numeric payload of a startup switch write, if the event is one. -/
def startupWriteValue : StartupEvent → Option Nat
  | StartupEvent.write_switch _ v => some v
  | _ => none

/-- The state a device-1 act message with status token `sw` leaves behind:
status decoded from the token, act flag set (the matched branch of
`iot_device_1_callback`, source lines 325-327). -/
def actedState (s : LoopState) (sw : String) : LoopState :=
  { s with iot_device_1_status := if sw ≠ "0" then SwitchStatus.ON else SwitchStatus.OFF,
           iot_device_1_act_flag := true }

/-- An act-topic payload whose JSON object has no `switch_status_value` key. -/
def c1_failing_payload : String := "\x7b\"foo\":\"bar\"\x7d"

/-- A well-formed act payload addressed to device 1 with status token `0`. -/
def c4_payload : String := "\x7b\"switch_status_value\":\"(2) IoT_Device_1 0\"\x7d"

/-- The literal act payload of spec section 8. -/
def c5_payload : String := "\x7b\"switch_status_value\":\"(1000) IoT_Device_1 1\"\x7d"

/-- A well-formed act payload addressed to device 1 with status token `1`. -/
def c6_payload : String := "\x7b\"switch_status_value\":\"(5) IoT_Device_1 1\"\x7d"

/-- C1: the claim says a message whose payload lacks the feature data field
name makes each device's callback return without a propagating exception and
without mutating that device's state. On the code, both callbacks instead
raise `UnboundLocalError`: `client_id` is assigned only inside the skipped
guard, and the later `if client_id == ...` test references it regardless. -/
theorem C1_missing_feature_field_raises :
    iot_device_1_callback c1_failing_payload
        ⟨SwitchStatus.OFF, SwitchStatus.OFF, false, false⟩
      = Except.error PyError.unboundLocalError ∧
    iot_device_2_callback c1_failing_payload
        ⟨SwitchStatus.OFF, SwitchStatus.OFF, false, false⟩
      = Except.error PyError.unboundLocalError :=
  ⟨rfl, rfl⟩

/-- C2: every act application performs exactly the BLE calls disable
notifications, write switch status, re-enable notifications, in that order,
and the device's notification stream is disabled from the disable call until
the enable call, so no sense event can be recorded in between. -/
theorem C2_act_call_ordering (v : SwitchStatus) :
    (iot_device_act true v).calls.filter isBleCall
      = [Call.disable_notifications, Call.write_switch_status v.value,
         Call.enable_notifications] ∧
    notifStates true (iot_device_act true v).calls = [false, false, true, true] :=
  ⟨rfl, rfl⟩

/-- Witness for C2 at the concrete status ON. -/
theorem C2_act_call_ordering_witness :
    (iot_device_act true SwitchStatus.ON).calls.filter isBleCall
      = [Call.disable_notifications, Call.write_switch_status 1,
         Call.enable_notifications] ∧
    notifStates true (iot_device_act true SwitchStatus.ON).calls
      = [false, false, true, true] :=
  C2_act_call_ordering SwitchStatus.ON

/-- C3 fails as stated: when a notification arrives, a pending act of device 2
is not applied in that iteration (`continue`), and when both devices have
pending acts, only device 1 is serviced and device 2 stays pending (`elif`),
so act draining is neither independent of notification processing nor
round-robin. -/
theorem C3_counterexample :
    (loop_iter true false true
        ⟨SwitchStatus.OFF, SwitchStatus.ON, false, true⟩).applies = [] ∧
    (loop_iter true false true
        ⟨SwitchStatus.OFF, SwitchStatus.ON, false, true⟩).state.iot_device_2_act_flag
      = true ∧
    (loop_iter false false true
        ⟨SwitchStatus.OFF, SwitchStatus.ON, true, true⟩).applies
      = [(1, SwitchStatus.OFF)] ∧
    (loop_iter false false true
        ⟨SwitchStatus.OFF, SwitchStatus.ON, true, true⟩).state.iot_device_2_act_flag
      = true :=
  ⟨rfl, rfl, rfl, rfl⟩

/-- C3 amended: in an iteration that saw a notification no act is drained and
the state is unchanged; otherwise device 1's pending act is drained and
applied first, and device 2's only when device 1 has none pending — fixed
priority for device 1, with a deferred act staying pending for a later
iteration. -/
theorem C3_amended_loop_priority (notif1 notif2 : Bool) (s : LoopState) :
    ((notif1 || notif2) = true →
      loop_iter notif1 notif2 true s = ⟨s, [], [], false⟩) ∧
    ((notif1 || notif2) = false → s.iot_device_1_act_flag = true →
      loop_iter notif1 notif2 true s
        = ⟨{ s with iot_device_1_act_flag := false }, [(1, s.iot_device_1_status)],
           (iot_device_act true s.iot_device_1_status).calls, false⟩) ∧
    ((notif1 || notif2) = false → s.iot_device_1_act_flag = false →
        s.iot_device_2_act_flag = true →
      loop_iter notif1 notif2 true s
        = ⟨{ s with iot_device_2_act_flag := false }, [(2, s.iot_device_2_status)],
           (iot_device_act true s.iot_device_2_status).calls, false⟩) := by
  refine ⟨?_, ?_, ?_⟩
  · intro h
    simp [loop_iter, h]
  · intro h h1
    simp [loop_iter, h, h1, iot_device_act]
  · intro h h1 h2
    simp [loop_iter, h, h1, h2, iot_device_act]

/-- Witness for the amended C3: device 1's pending act is drained when no
notification arrived. -/
theorem C3_amended_loop_priority_witness :
    loop_iter false false true ⟨SwitchStatus.ON, SwitchStatus.OFF, true, false⟩
      = ⟨⟨SwitchStatus.ON, SwitchStatus.OFF, false, false⟩, [(1, SwitchStatus.ON)],
         (iot_device_act true SwitchStatus.ON).calls, false⟩ :=
  (C3_amended_loop_priority false false
    ⟨SwitchStatus.ON, SwitchStatus.OFF, true, false⟩).2.1 rfl rfl

/-- C4: for a payload containing the feature field whose value splits into a
timestamp, the callback's own device identifier, and a status token, the
callback decodes the token `0` as OFF and any other token as ON (the
non-strict inequality of the source) and stores the decoded value with the
act flag set. Both device callbacks are instances of this function. -/
theorem C4_token_decoding (device_name payload fv ts sw : String) (st : DeviceState)
    (hc : pyContains payload FEATURE_DATA_NAME = true)
    (hj : json_loads_lookup payload FEATURE_DATA_NAME = Except.ok fv)
    (hs : pySplit fv ' ' = [ts, device_name, sw]) :
    iot_device_callback device_name payload st
      = Except.ok ⟨if sw ≠ "0" then SwitchStatus.ON else SwitchStatus.OFF, true⟩ := by
  simp [iot_device_callback, hc, hj, hs]

/-- Witness for C4: the token `0` decodes to OFF and overwrites a previous ON. -/
theorem C4_token_decoding_witness :
    iot_device_callback IOT_DEVICE_1_NAME c4_payload ⟨SwitchStatus.ON, false⟩
      = Except.ok ⟨SwitchStatus.OFF, true⟩ :=
  C4_token_decoding IOT_DEVICE_1_NAME c4_payload "(2) IoT_Device_1 0" "(2)" "0"
    ⟨SwitchStatus.ON, false⟩ rfl rfl rfl

/-- C5: routing the literal payload of spec section 8 sets device 1's status
to ON with its act flag pending, and through device 2's callback the same
payload leaves device 2's state untouched. -/
theorem C5_literal_payload_routing :
    iot_device_1_callback c5_payload ⟨SwitchStatus.OFF, SwitchStatus.OFF, false, false⟩
      = Except.ok ⟨SwitchStatus.ON, SwitchStatus.OFF, true, false⟩ ∧
    iot_device_2_callback c5_payload ⟨SwitchStatus.OFF, SwitchStatus.OFF, false, false⟩
      = Except.ok ⟨SwitchStatus.OFF, SwitchStatus.OFF, false, false⟩ :=
  ⟨rfl, rfl⟩

/-- C6: delivering the same act message twice is idempotent on the single
pending-act cell, one loop drain applies the decoded value exactly once and
clears the flag, a second drain applies nothing, and a later act message
overwrites rather than queues behind an unapplied one. -/
theorem C6_duplicate_delivery (payload fv ts sw : String) (s : LoopState)
    (hc : pyContains payload FEATURE_DATA_NAME = true)
    (hj : json_loads_lookup payload FEATURE_DATA_NAME = Except.ok fv)
    (hs : pySplit fv ' ' = [ts, IOT_DEVICE_1_NAME, sw])
    (h2 : s.iot_device_2_act_flag = false) :
    iot_device_1_callback payload s = Except.ok (actedState s sw) ∧
    iot_device_1_callback payload (actedState s sw) = Except.ok (actedState s sw) ∧
    (loop_iter false false true (actedState s sw)).applies
      = [(1, if sw ≠ "0" then SwitchStatus.ON else SwitchStatus.OFF)] ∧
    (loop_iter false false true (actedState s sw)).state.iot_device_1_act_flag = false ∧
    (loop_iter false false true
        (loop_iter false false true (actedState s sw)).state).applies = [] ∧
    (∀ (payload2 fv2 ts2 sw2 : String),
      pyContains payload2 FEATURE_DATA_NAME = true →
      json_loads_lookup payload2 FEATURE_DATA_NAME = Except.ok fv2 →
      pySplit fv2 ' ' = [ts2, IOT_DEVICE_1_NAME, sw2] →
      iot_device_1_callback payload2 (actedState s sw) = Except.ok (actedState s sw2)) := by
  rcases s with ⟨s1, s2, f1, f2⟩
  simp only at h2
  subst h2
  refine ⟨?_, ?_, ?_, ?_, ?_, ?_⟩
  · simp [iot_device_1_callback, iot_device_callback, actedState, hc, hj, hs]
  · simp [iot_device_1_callback, iot_device_callback, actedState, hc, hj, hs]
  · simp [loop_iter, iot_device_act, actedState]
  · simp [loop_iter, iot_device_act, actedState]
  · simp [loop_iter, iot_device_act, actedState]
  · intro payload2 fv2 ts2 sw2 hc2 hj2 hs2
    simp [iot_device_1_callback, iot_device_callback, actedState, hc2, hj2, hs2]

/-- Witness for C6 at the concrete payload with status token `1`. -/
theorem C6_duplicate_delivery_witness :
    iot_device_1_callback c6_payload ⟨SwitchStatus.OFF, SwitchStatus.OFF, false, false⟩
      = Except.ok (actedState ⟨SwitchStatus.OFF, SwitchStatus.OFF, false, false⟩ "1") ∧
    iot_device_1_callback c6_payload
        (actedState ⟨SwitchStatus.OFF, SwitchStatus.OFF, false, false⟩ "1")
      = Except.ok (actedState ⟨SwitchStatus.OFF, SwitchStatus.OFF, false, false⟩ "1") ∧
    (loop_iter false false true
        (actedState ⟨SwitchStatus.OFF, SwitchStatus.OFF, false, false⟩ "1")).applies
      = [(1, SwitchStatus.ON)] ∧
    (loop_iter false false true
        (actedState ⟨SwitchStatus.OFF, SwitchStatus.OFF, false, false⟩ "1")).state.iot_device_1_act_flag
      = false ∧
    (loop_iter false false true
        (loop_iter false false true
          (actedState ⟨SwitchStatus.OFF, SwitchStatus.OFF, false, false⟩ "1")).state).applies
      = [] :=
  let h := C6_duplicate_delivery c6_payload "(5) IoT_Device_1 1" "(5)" "1"
    ⟨SwitchStatus.OFF, SwitchStatus.OFF, false, false⟩ rfl rfl rfl rfl
  ⟨h.1, h.2.1, h.2.2.1, h.2.2.2.1, h.2.2.2.2.1⟩

/-- C7: when the BLE write raises during act application, the exception is
printed by `main`'s handler, the status variables of both devices are
unchanged, no shadow desired-state update happens, exactly one apply attempt
was made (disable followed by the failed write), and the loop is exited
rather than retrying. -/
theorem C7_write_failure (s : LoopState) (h1 : s.iot_device_1_act_flag = true) :
    (run_iter_caught false false false s).reported = true ∧
    (run_iter_caught false false false s).loop_exited = true ∧
    (run_iter_caught false false false s).state.iot_device_1_status
      = s.iot_device_1_status ∧
    (run_iter_caught false false false s).state.iot_device_2_status
      = s.iot_device_2_status ∧
    (run_iter_caught false false false s).applies = [(1, s.iot_device_1_status)] ∧
    (run_iter_caught false false false s).calls
      = [Call.disable_notifications,
         Call.write_switch_status s.iot_device_1_status.value] ∧
    (∀ j, Call.update_shadow_state j ∉ (run_iter_caught false false false s).calls) := by
  rcases s with ⟨s1, s2, f1, f2⟩
  simp only at h1
  subst h1
  refine ⟨rfl, rfl, rfl, rfl, rfl, rfl, ?_⟩
  intro j
  simp [run_iter_caught, loop_iter, iot_device_act]

/-- Witness for C7 at a concrete state with device 1's act pending. -/
theorem C7_write_failure_witness :
    (run_iter_caught false false false
        ⟨SwitchStatus.ON, SwitchStatus.OFF, true, false⟩).reported = true ∧
    (run_iter_caught false false false
        ⟨SwitchStatus.ON, SwitchStatus.OFF, true, false⟩).loop_exited = true ∧
    (run_iter_caught false false false
        ⟨SwitchStatus.ON, SwitchStatus.OFF, true, false⟩).state.iot_device_1_status
      = SwitchStatus.ON ∧
    (run_iter_caught false false false
        ⟨SwitchStatus.ON, SwitchStatus.OFF, true, false⟩).state.iot_device_2_status
      = SwitchStatus.OFF ∧
    (run_iter_caught false false false
        ⟨SwitchStatus.ON, SwitchStatus.OFF, true, false⟩).applies
      = [(1, SwitchStatus.ON)] ∧
    (run_iter_caught false false false
        ⟨SwitchStatus.ON, SwitchStatus.OFF, true, false⟩).calls
      = [Call.disable_notifications, Call.write_switch_status 1] :=
  let h := C7_write_failure ⟨SwitchStatus.ON, SwitchStatus.OFF, true, false⟩ rfl
  ⟨h.1, h.2.1, h.2.2.1, h.2.2.2.1, h.2.2.2.2.1, h.2.2.2.2.2.1⟩

/-- C8: the claim says a missing required startup parameter makes the program
print a short message and terminate with a non-zero outcome. On the code,
when one option is absent while others are present, the truth test on the
never-assigned global raises `NameError` (uncaught, since `read_input` runs
before `main`'s try block): the process still dies with a non-zero status
before any device interaction, but with an interpreter traceback and without
the intended short message, whose print is unreachable in that case. With no
options at all, the explicit `GetoptError` path prints the usage message and
exits 1 as intended. -/
theorem C8_missing_param_name_error :
    read_input ["-r", "ca.pem"] = ReadInputResult.raisedNameError [] ∧
    read_input ["-e", "xyz.amazonaws.com"] = ReadInputResult.raisedNameError [] ∧
    read_input [] = ReadInputResult.exited 1 [USAGE] :=
  ⟨rfl, rfl, rfl⟩

/-- C9: the startup sequence initializes both statuses to OFF with act flags
cleared, writes the numeric value 0 to both physical switches, and sets both
shadow desired records to 0, all strictly before the two
enable-notifications calls (the last two events of the trace), hence before
any sense event can be recorded and before the loop drains any act. -/
theorem C9_startup_initialization :
    main_startup.1 = ⟨SwitchStatus.OFF, SwitchStatus.OFF, false, false⟩ ∧
    main_startup.2
      = [StartupEvent.write_switch 1 0,
         StartupEvent.write_switch 2 0,
         StartupEvent.subscribe_act 1,
         StartupEvent.subscribe_act 2,
         StartupEvent.update_shadow 1 (shadow_desired_json 0),
         StartupEvent.update_shadow 2 (shadow_desired_json 0),
         StartupEvent.add_sense_listener 1,
         StartupEvent.add_sense_listener 2,
         StartupEvent.enable_notif 1,
         StartupEvent.enable_notif 2] :=
  ⟨rfl, rfl⟩

/-- C10: a status always holds a member of the two-valued enum whose numeric
value is 0 or 1; every physical write in an act trace carries exactly that
numeric value, every shadow update in an act trace carries the document
built from it, every startup write carries 0 or 1, and a callback that
returns normally leaves a status that is OFF or ON. -/
theorem C10_enum_invariant (v : SwitchStatus) (wok : Bool) :
    (v.value = 0 ∨ v.value = 1) ∧
    (∀ c ∈ (iot_device_act wok v).calls, ∀ n, callWriteValue c = some n → n = v.value) ∧
    (∀ c ∈ (iot_device_act wok v).calls, ∀ j, callShadowJson c = some j →
        j = shadow_desired_json v.value) ∧
    (∀ e ∈ main_startup.2, ∀ n, startupWriteValue e = some n → (n = 0 ∨ n = 1)) ∧
    (∀ name payload st st', iot_device_callback name payload st = Except.ok st' →
        (st'.status = SwitchStatus.OFF ∨ st'.status = SwitchStatus.ON)) := by
  refine ⟨?_, ?_, ?_, ?_, ?_⟩
  · cases v
    · exact Or.inl rfl
    · exact Or.inr rfl
  · cases wok <;> simp [iot_device_act, callWriteValue]
  · cases wok <;> simp [iot_device_act, callShadowJson]
  · decide
  · intro name payload st st' _h
    rcases st' with ⟨stat, flag⟩
    cases stat
    · exact Or.inl rfl
    · exact Or.inr rfl

/-- Witness for C10 at the concrete status ON. -/
theorem C10_enum_invariant_witness :
    SwitchStatus.ON.value = 0 ∨ SwitchStatus.ON.value = 1 :=
  (C10_enum_invariant SwitchStatus.ON true).1

end EdgeBleAws
